import Mathlib

/-!
Verification of the authorization dependency helpers in
`src/app/shared/dependencies.py`: principal resolution (`get_current_user`,
`get_optional_current_user`), the legacy role gate (`require_role` /
`role_checker`) and the granular permission check (`require_permission` /
`permission_checker`).

The embedding is shallow: each Python function becomes a pure Lean function.
The database session is modelled as an explicit read-only record of rows; the
SQLAlchemy `query(...).filter(...).first()` idiom becomes `List.find?` over
those rows.  JWT decoding (`jose.jwt.decode` plus the `payload.get("sub")`
access) is an external collaborator and is modelled as an abstract function
`String -> DecodeResult`.  `fastapi.HTTPException` is modelled by its status
code and detail string (the `WWW-Authenticate` header attached to the 401
exception carries no decision logic and is omitted).
-/

/-- Result of decoding a JWT: the decode call raises `JWTError`, or yields a
payload whose `sub` entry is missing, or yields a principal id. -/
inductive DecodeResult where
  | jwtError : DecodeResult
  | noSub : DecodeResult
  | sub (user_id : Int) : DecodeResult
deriving DecidableEq, Repr

/-- A `User` row: id, legacy numeric role, active flag. -/
structure User where
  id : Int
  role : Int
  is_active : Bool
deriving DecidableEq, Repr

/-- A `PermissionTemplate` row: id, role name, active flag. -/
structure PermissionTemplate where
  id : Int
  role_name : String
  is_active : Bool
deriving DecidableEq, Repr

/-- A `Permission` row: id and the (entity, action) pair it registers. -/
structure Permission where
  id : Int
  entity : String
  action : String
deriving DecidableEq, Repr

/-- A `PermissionTemplateItem` row: binding of (template, permission) to a
granted level. -/
structure PermissionTemplateItem where
  template_id : Int
  permission_id : Int
  permission_level : Int
deriving DecidableEq, Repr

/-- The read-only persisted state the dependencies query. -/
structure Database where
  users : List User
  templates : List PermissionTemplate
  permissions : List Permission
  template_items : List PermissionTemplateItem
deriving Repr

/-- `fastapi.HTTPException`, reduced to status code and detail. -/
structure HTTPException where
  status_code : Nat
  detail : String
deriving DecidableEq, Repr

/-- The 401 exception built at the top of `get_current_user`. -/
def credentials_exception : HTTPException :=
  { status_code := 401, detail := "No se pudieron validar las credenciales" }

/-- The 403 exception raised for an inactive user. -/
def inactive_error : HTTPException :=
  { status_code := 403, detail := "Usuario inactivo" }

/-- `get_current_user` (dependencies.py, lines 36-85): decode the token,
look the user up by id, reject inactive users. -/
def get_current_user (decode : String → DecodeResult) (token : String)
    (db : Database) : Except HTTPException User :=
  match decode token with
  | DecodeResult.jwtError => Except.error credentials_exception
  | DecodeResult.noSub => Except.error credentials_exception
  | DecodeResult.sub user_id =>
    match db.users.find? (fun u => u.id == user_id) with
    | none => Except.error credentials_exception
    | some user =>
      if !user.is_active then Except.error inactive_error
      else Except.ok user

/-- `get_optional_current_user` (lines 88-118): `None` for a missing or
falsy token, otherwise `get_current_user` with every `HTTPException`
caught and collapsed to `None`. -/
def get_optional_current_user (decode : String → DecodeResult)
    (token : Option String) (db : Database) : Option User :=
  match token with
  | none => none
  | some t =>
    if t = "" then none
    else
      match get_current_user decode t db with
      | Except.error _ => none
      | Except.ok u => some u

/-- The 403 exception raised by `role_checker`. -/
def role_too_low_error (minimum_role : Int) : HTTPException :=
  { status_code := 403,
    detail := "Se requiere rol de nivel " ++ toString minimum_role ++ " o superior" }

/-- The inner `role_checker` of `require_role` (lines 149-157). -/
def role_checker (minimum_role : Int) (current_user : User) :
    Except HTTPException User :=
  if current_user.role > minimum_role then
    Except.error (role_too_low_error minimum_role)
  else
    Except.ok current_user

/-- `require_role` (lines 123-157) returns `role_checker` closed over the
minimum role. -/
def require_role (minimum_role : Int) : User → Except HTTPException User :=
  role_checker minimum_role

/-- Predefined dependency `require_admin = require_role(1)` (line 161). -/
def require_admin : User → Except HTTPException User := require_role 1

/-- Predefined dependency `require_manager = require_role(2)` (line 162). -/
def require_manager : User → Except HTTPException User := require_role 2

/-- Predefined dependency `require_employee = require_role(3)` (line 163). -/
def require_employee : User → Except HTTPException User := require_role 3

/-- Predefined dependency `require_any_user = require_role(5)` (line 164). -/
def require_any_user : User → Except HTTPException User := require_role 5

/-- The static `role_mapping` dictionary of `permission_checker`
(lines 405-411): legacy roles 1-5 to template names. -/
def role_mapping (role : Int) : Option String :=
  if role = 1 then some "Admin"
  else if role = 2 then some "Manager"
  else if role = 3 then some "Collaborator"
  else if role = 4 then some "Reader"
  else if role = 5 then some "Guest"
  else none

/-- The 403 exception for an unmapped role (lines 415-418). -/
def invalid_role_error (role : Int) : HTTPException :=
  { status_code := 403, detail := "Rol de usuario inválido: " ++ toString role }

/-- The 403 exception for a role with no active template (lines 427-430). -/
def no_template_error (role_name : String) : HTTPException :=
  { status_code := 403,
    detail := "No se encontró configuración de permisos para el rol " ++ role_name }

/-- The 500 exception for an unregistered permission (lines 440-443). -/
def permission_not_registered_error (entity action : String) : HTTPException :=
  { status_code := 500,
    detail := "Permiso no configurado: " ++ entity ++ ":" ++ action }

/-- The 403 exception for a template with no binding (lines 453-456). -/
def role_lacks_permission_error (role_name entity action : String) : HTTPException :=
  { status_code := 403,
    detail := "Tu rol (" ++ role_name ++ ") no tiene permiso para: "
      ++ entity ++ ":" ++ action }

/-- The 403 exception for an insufficient level (lines 460-463). -/
def insufficient_level_error (min_level actual_level : Int) : HTTPException :=
  { status_code := 403,
    detail := "Nivel de permiso insuficiente. Requiere nivel " ++ toString min_level
      ++ ", tienes nivel " ++ toString actual_level }

/-- The inner `permission_checker` of `require_permission` (lines 395-469):
map the role to a template name, find the active template, find the
registered permission, find the binding, compare levels. -/
def permission_checker (entity action : String) (min_level : Int)
    (current_user : User) (db : Database) : Except HTTPException User :=
  match role_mapping current_user.role with
  | none => Except.error (invalid_role_error current_user.role)
  | some role_name =>
    match db.templates.find? (fun t => t.role_name == role_name && t.is_active == true) with
    | none => Except.error (no_template_error role_name)
    | some template =>
      match db.permissions.find? (fun p => p.entity == entity && p.action == action) with
      | none => Except.error (permission_not_registered_error entity action)
      | some permission =>
        match db.template_items.find?
            (fun i => i.template_id == template.id && i.permission_id == permission.id) with
        | none => Except.error (role_lacks_permission_error role_name entity action)
        | some template_item =>
          if template_item.permission_level < min_level then
            Except.error (insufficient_level_error min_level template_item.permission_level)
          else
            Except.ok current_user

/-- `require_permission` (lines 339-471) returns `permission_checker`
closed over entity, action and `min_level` (default 1 at call sites). -/
def require_permission (entity action : String) (min_level : Int) :
    User → Database → Except HTTPException User :=
  permission_checker entity action min_level

/-- Invoking a check twice on the same input, as two separate calls. -/
def invoke_twice {α β : Type} (check : α → β) (x : α) : β × β :=
  (check x, check x)

/-- Whether a status code is a server-side (5xx) error status. -/
def server_error_status (code : Nat) : Prop :=
  500 ≤ code ∧ code < 600

instance (code : Nat) : Decidable (server_error_status code) := by
  unfold server_error_status
  infer_instance

/- ===================== Concrete sample data ===================== -/

/-- Sample user with role 1 (Admin), active. -/
def adminUser : User := { id := 1, role := 1, is_active := true }

/-- Sample user with role 5 (Guest), active. -/
def guestUser : User := { id := 2, role := 5, is_active := true }

/-- Sample user with unmapped role 99, active. -/
def rogueUser : User := { id := 3, role := 99, is_active := true }

/-- Sample inactive user. -/
def sleepyUser : User := { id := 4, role := 1, is_active := false }

/-- Sample user with role 0, below the mapped range. -/
def zeroUser : User := { id := 5, role := 0, is_active := true }

/-- Sample active template for the Admin role name. -/
def tplAdmin : PermissionTemplate := { id := 10, role_name := "Admin", is_active := true }

/-- Sample active template for the Guest role name. -/
def tplGuest : PermissionTemplate := { id := 11, role_name := "Guest", is_active := true }

/-- Sample registered permission (reports, export). -/
def permExport : Permission := { id := 20, entity := "reports", action := "export" }

/-- Sample registered permission (individuals, list). -/
def permList : Permission := { id := 21, entity := "individuals", action := "list" }

/-- Binding of (Admin template, reports:export) at level 4. -/
def itemAdminExport : PermissionTemplateItem :=
  { template_id := 10, permission_id := 20, permission_level := 4 }

/-- Binding of (Guest template, individuals:list) at level 0. -/
def itemGuestList : PermissionTemplateItem :=
  { template_id := 11, permission_id := 21, permission_level := 0 }

/-- Sample database state used by the concrete witnesses. -/
def db0 : Database :=
  { users := [adminUser, guestUser, rogueUser, sleepyUser, zeroUser],
    templates := [tplAdmin, tplGuest],
    permissions := [permExport, permList],
    template_items := [itemAdminExport, itemGuestList] }

/-- Sample decoder: fixed tokens decode to the sample user ids. -/
def dec0 : String → DecodeResult := fun t =>
  if t = "tokAdmin" then DecodeResult.sub 1
  else if t = "tokSleepy" then DecodeResult.sub 4
  else if t = "tokGhost" then DecodeResult.sub 999
  else if t = "tokNoSub" then DecodeResult.noSub
  else DecodeResult.jwtError

/- ===================== Claims ===================== -/

/-- Claim C5: the Check built by require_role(minimum_role) fails with the 403
Forbidden role-too-low exception exactly when the principal's role is
numerically greater than minimum_role, and otherwise succeeds and returns the
same principal unchanged. -/
theorem role_checker_spec (minimum_role : Int) (u : User) :
    (role_checker minimum_role u = Except.error (role_too_low_error minimum_role) ↔
      minimum_role < u.role) ∧
    (u.role ≤ minimum_role → role_checker minimum_role u = Except.ok u) := by
  unfold role_checker
  rcases lt_or_le minimum_role u.role with h | h
  · constructor
    · simp only [gt_iff_lt, if_pos h]
      exact iff_of_true trivial h
    · intro hle
      exact absurd hle (not_le.mpr h)
  · constructor
    · simp only [gt_iff_lt, if_neg (not_lt.mpr h)]
      constructor
      · intro hbad
        exact Except.noConfusion hbad
      · intro hlt
        exact absurd hlt (not_lt.mpr h)
    · intro _
      simp only [gt_iff_lt, if_neg (not_lt.mpr h)]

/-- Witness for C5: require_role(2) rejects the role-99 user and accepts the
role-1 admin, returning it unchanged. -/
theorem role_checker_spec_witness :
    role_checker 2 rogueUser = Except.error (role_too_low_error 2) ∧
    role_checker 2 adminUser = Except.ok adminUser :=
  ⟨(role_checker_spec 2 rogueUser).1.mpr (by decide),
   (role_checker_spec 2 adminUser).2 (by decide)⟩

/-- Claim C1: when the principal's role maps to an active template that has a
binding for the registered (entity, action) permission at level L, the Check
built by require_permission succeeds and returns the principal unchanged for
min_level at most L, and for min_level above L fails with the 403 Forbidden
insufficient-level exception whose detail reports both min_level and L. -/
theorem level_check_spec (u : User) (db : Database) (entity action role_name : String)
    (t : PermissionTemplate) (p : Permission) (i : PermissionTemplateItem) (min_level : Int)
    (hrole : role_mapping u.role = some role_name)
    (htpl : db.templates.find? (fun tp => tp.role_name == role_name && tp.is_active == true) = some t)
    (hperm : db.permissions.find? (fun q => q.entity == entity && q.action == action) = some p)
    (hitem : db.template_items.find?
      (fun it => it.template_id == t.id && it.permission_id == p.id) = some i) :
    (min_level ≤ i.permission_level →
      require_permission entity action min_level u db = Except.ok u) ∧
    (i.permission_level < min_level →
      require_permission entity action min_level u db =
        Except.error (insufficient_level_error min_level i.permission_level)) := by
  unfold require_permission permission_checker
  simp only [hrole, htpl, hperm, hitem]
  constructor
  · intro h
    rw [if_neg (not_lt.mpr h)]
  · intro h
    rw [if_pos h]

/-- Witness for C1: the Admin binding for reports:export is at level 4, so
min_level 4 succeeds and min_level 5 fails reporting required 5, actual 4. -/
theorem level_check_spec_witness :
    require_permission "reports" "export" 4 adminUser db0 = Except.ok adminUser ∧
    require_permission "reports" "export" 5 adminUser db0 =
      Except.error (insufficient_level_error 5 4) :=
  ⟨(level_check_spec adminUser db0 "reports" "export" "Admin" tplAdmin permExport
      itemAdminExport 4 (by decide) (by decide) (by decide) (by decide)).1 (by decide),
   (level_check_spec adminUser db0 "reports" "export" "Admin" tplAdmin permExport
      itemAdminExport 5 (by decide) (by decide) (by decide) (by decide)).2 (by decide)⟩

/-- Claim C10: with min_level 0, a principal whose mapped active template has a
binding for the registered permission is authorized even when the binding's
permission_level is 0 (the level documented as no access), because the
comparison permission_level < min_level is strict. -/
theorem min_level_zero_grants (u : User) (db : Database) (entity action role_name : String)
    (t : PermissionTemplate) (p : Permission) (i : PermissionTemplateItem)
    (hrole : role_mapping u.role = some role_name)
    (htpl : db.templates.find? (fun tp => tp.role_name == role_name && tp.is_active == true) = some t)
    (hperm : db.permissions.find? (fun q => q.entity == entity && q.action == action) = some p)
    (hitem : db.template_items.find?
      (fun it => it.template_id == t.id && it.permission_id == p.id) = some i)
    (hlvl : i.permission_level = 0) :
    require_permission entity action 0 u db = Except.ok u := by
  unfold require_permission permission_checker
  simp only [hrole, htpl, hperm, hitem]
  rw [if_neg (by omega)]

/-- Witness for C10: the Guest binding for individuals:list is at level 0, yet
require_permission("individuals","list",0) authorizes the guest. -/
theorem min_level_zero_grants_witness :
    require_permission "individuals" "list" 0 guestUser db0 = Except.ok guestUser :=
  min_level_zero_grants guestUser db0 "individuals" "list" "Guest" tplGuest permList
    itemGuestList (by decide) (by decide) (by decide) (by decide) (by decide)

/-- Claim C4: when the principal's role maps to an active template but that
template has no binding for the registered (entity, action) permission, the
Check fails with the 403 Forbidden role-lacks-permission exception, whose
status is not a server-side (5xx) one. -/
theorem role_lacks_permission_spec (u : User) (db : Database)
    (entity action role_name : String) (t : PermissionTemplate) (p : Permission)
    (min_level : Int)
    (hrole : role_mapping u.role = some role_name)
    (htpl : db.templates.find? (fun tp => tp.role_name == role_name && tp.is_active == true) = some t)
    (hperm : db.permissions.find? (fun q => q.entity == entity && q.action == action) = some p)
    (hitem : db.template_items.find?
      (fun it => it.template_id == t.id && it.permission_id == p.id) = none) :
    require_permission entity action min_level u db =
      Except.error (role_lacks_permission_error role_name entity action) ∧
    ¬ server_error_status (role_lacks_permission_error role_name entity action).status_code := by
  constructor
  · unfold require_permission permission_checker
    simp only [hrole, htpl, hperm, hitem]
  · intro h
    have h1 : (500 : Nat) ≤ 403 := h.1
    omega

/-- Witness for C4: the Guest template has no binding for the registered
permission reports:export, so the guest is denied with 403. -/
theorem role_lacks_permission_spec_witness :
    require_permission "reports" "export" 1 guestUser db0 =
      Except.error (role_lacks_permission_error "Guest" "reports" "export") :=
  (role_lacks_permission_spec guestUser db0 "reports" "export" "Guest" tplGuest
    permExport 1 (by decide) (by decide) (by decide) (by decide)).1

/-- Claim C2, counterexample: for role 99 (no entry in role_mapping) the Check
fails with status 403 — the exact status used for the Forbidden caller-side
denials such as role-lacks-permission — and not a server-side (5xx) status,
contradicting the claim that the failure maps to a server-side error status
distinguishable from Forbidden. -/
theorem invalid_role_status_counterexample :
    role_mapping rogueUser.role = none ∧
    require_permission "reports" "export" 1 rogueUser db0 =
      Except.error (invalid_role_error 99) ∧
    (invalid_role_error 99).status_code =
      (role_lacks_permission_error "Guest" "reports" "export").status_code ∧
    ¬ server_error_status (invalid_role_error 99).status_code :=
  ⟨rfl, rfl, rfl, by decide⟩

/-- Claim C2 as amended: for every principal whose role has no entry in the
static role_mapping, every permission Check fails with the 403 Forbidden
invalid-role exception — the same client-side status used for authorization
denials, not a server-side error. -/
theorem invalid_role_forbidden_spec (u : User) (db : Database)
    (entity action : String) (min_level : Int)
    (hrole : role_mapping u.role = none) :
    require_permission entity action min_level u db =
      Except.error (invalid_role_error u.role) ∧
    (invalid_role_error u.role).status_code = 403 := by
  constructor
  · unfold require_permission permission_checker
    simp only [hrole]
  · rfl

/-- Witness for the amended C2: the role-99 user is rejected with the 403
invalid-role exception by a permission Check. -/
theorem invalid_role_forbidden_spec_witness :
    require_permission "users" "delete" 1 rogueUser db0 =
      Except.error (invalid_role_error 99) ∧
    (invalid_role_error 99).status_code = 403 :=
  invalid_role_forbidden_spec rogueUser db0 "users" "delete" 1 (by decide)

/-- Claim C3, counterexample: the permission (foo, bar) has no registered
Permission row in db0, yet the role-99 principal does not get the 500
configuration error — the check fails earlier, at the role-mapping step, with
a 403 — so the claim's "for every resolved principal, regardless of which
principal invokes it" is false. -/
theorem unregistered_permission_counterexample :
    db0.permissions.find? (fun q => q.entity == "foo" && q.action == "bar") = none ∧
    require_permission "foo" "bar" 1 rogueUser db0 =
      Except.error (invalid_role_error 99) ∧
    invalid_role_error 99 ≠ permission_not_registered_error "foo" "bar" ∧
    ¬ server_error_status (invalid_role_error 99).status_code :=
  ⟨rfl, rfl, by decide, by decide⟩

/-- Claim C3 as amended: for every (entity, action) with no registered
Permission row, the Check fails with the 500 internal-server-error
permission-not-configured exception — a server-side status, not a client
403 — for every resolved principal whose role is mapped and whose mapped
role name has an active template. -/
theorem permission_not_registered_spec (u : User) (db : Database)
    (entity action role_name : String) (t : PermissionTemplate) (min_level : Int)
    (hrole : role_mapping u.role = some role_name)
    (htpl : db.templates.find? (fun tp => tp.role_name == role_name && tp.is_active == true) = some t)
    (hperm : db.permissions.find? (fun q => q.entity == entity && q.action == action) = none) :
    require_permission entity action min_level u db =
      Except.error (permission_not_registered_error entity action) ∧
    server_error_status (permission_not_registered_error entity action).status_code := by
  constructor
  · unfold require_permission permission_checker
    simp only [hrole, htpl, hperm]
  · exact ⟨le_refl 500, (by omega : (500 : Nat) < 600)⟩

/-- Witness for the amended C3: the admin requesting the unregistered
permission (foo, bar) gets the 500 configuration error. -/
theorem permission_not_registered_spec_witness :
    require_permission "foo" "bar" 1 adminUser db0 =
      Except.error (permission_not_registered_error "foo" "bar") :=
  (permission_not_registered_spec adminUser db0 "foo" "bar" "Admin" tplAdmin 1
    (by decide) (by decide) (by decide)).1

/-- Claim C6: get_current_user fails with the 401 credentials exception when
the token decode raises, yields no principal id, or yields an id with no
matching user; fails with the 403 inactive exception when the matched user is
not active; and returns the user exactly when all three conditions pass. -/
theorem get_current_user_spec (decode : String → DecodeResult) (token : String)
    (db : Database) :
    ((decode token = DecodeResult.jwtError ∨ decode token = DecodeResult.noSub) →
      get_current_user decode token db = Except.error credentials_exception) ∧
    (∀ user_id, decode token = DecodeResult.sub user_id →
      db.users.find? (fun v => v.id == user_id) = none →
      get_current_user decode token db = Except.error credentials_exception) ∧
    (∀ user_id u, decode token = DecodeResult.sub user_id →
      db.users.find? (fun v => v.id == user_id) = some u →
      u.is_active = false →
      get_current_user decode token db = Except.error inactive_error) ∧
    (∀ user_id u, decode token = DecodeResult.sub user_id →
      db.users.find? (fun v => v.id == user_id) = some u →
      u.is_active = true →
      get_current_user decode token db = Except.ok u) ∧
    (∀ u, get_current_user decode token db = Except.ok u →
      ∃ user_id, decode token = DecodeResult.sub user_id ∧
        db.users.find? (fun v => v.id == user_id) = some u ∧
        u.is_active = true) := by
  refine ⟨?_, ?_, ?_, ?_, ?_⟩
  · rintro (h | h) <;> simp only [get_current_user, h]
  · intro user_id h hf
    simp only [get_current_user, h, hf]
  · intro user_id u h hf ha
    simp only [get_current_user, h, hf, ha, Bool.not_false, if_pos]
  · intro user_id u h hf ha
    simp only [get_current_user, h, hf, ha, Bool.not_true, Bool.false_eq_true,
      if_false]
  · intro u h
    unfold get_current_user at h
    split at h
    · exact Except.noConfusion h
    · exact Except.noConfusion h
    · next user_id heq =>
      split at h
      · exact Except.noConfusion h
      · next v hf =>
        split at h
        · exact Except.noConfusion h
        · next hcond =>
          have hv : v = u := Except.ok.inj h
          have ha : v.is_active = true := by
            cases hb : v.is_active
            · rw [hb] at hcond
              exact absurd rfl hcond
            · rfl
          exact ⟨user_id, heq, hv ▸ hf, hv ▸ ha⟩

/-- Witness for C6: a garbage token, an unknown principal id, the inactive
user and the active admin each take the branch the claim describes. -/
theorem get_current_user_spec_witness :
    get_current_user dec0 "garbage" db0 = Except.error credentials_exception ∧
    get_current_user dec0 "tokGhost" db0 = Except.error credentials_exception ∧
    get_current_user dec0 "tokSleepy" db0 = Except.error inactive_error ∧
    get_current_user dec0 "tokAdmin" db0 = Except.ok adminUser :=
  ⟨(get_current_user_spec dec0 "garbage" db0).1 (Or.inl (by decide)),
   (get_current_user_spec dec0 "tokGhost" db0).2.1 999 (by decide) (by decide),
   (get_current_user_spec dec0 "tokSleepy" db0).2.2.1 4 sleepyUser
     (by decide) (by decide) (by decide),
   (get_current_user_spec dec0 "tokAdmin" db0).2.2.2.1 1 adminUser
     (by decide) (by decide) (by decide)⟩

/-- Claim C7: get_optional_current_user never fails: for every token
(including absent) its result is either absent, or a user on which the
underlying get_current_user succeeded; in particular every failure of the
underlying resolver collapses to absent. -/
theorem get_optional_never_fails (decode : String → DecodeResult)
    (token : Option String) (db : Database) :
    get_optional_current_user decode token db = none ∨
    ∃ t u, token = some t ∧ get_current_user decode t db = Except.ok u ∧
      get_optional_current_user decode token db = some u := by
  cases token with
  | none => exact Or.inl rfl
  | some t =>
    by_cases he : t = ""
    · exact Or.inl (by simp only [get_optional_current_user, if_pos he])
    · cases hg : get_current_user decode t db with
      | error e =>
        exact Or.inl (by simp only [get_optional_current_user, if_neg he, hg])
      | ok u =>
        exact Or.inr ⟨t, u, rfl, hg,
          by simp only [get_optional_current_user, if_neg he, hg]⟩

/-- Claim C8: invoking the same Check twice with the same principal and the
same persisted state yields identical outcomes, for both the role-based and
the permission-based checker. -/
theorem checks_deterministic (entity action : String) (min_level minimum_role : Int)
    (u : User) (db : Database) :
    (invoke_twice (role_checker minimum_role) u).1 =
      (invoke_twice (role_checker minimum_role) u).2 ∧
    (invoke_twice (permission_checker entity action min_level u) db).1 =
      (invoke_twice (permission_checker entity action min_level u) db).2 :=
  ⟨rfl, rfl⟩

/-- Claim C9: a principal whose role is below 1 is accepted by every role gate
defined in the code (require_admin and the other presets, and any
require_role threshold of at least 1), yet every permission Check rejects it
at the role-mapping step because role_mapping covers only roles 1 to 5. -/
theorem role_gate_no_lower_bound (u : User) (db : Database)
    (entity action : String) (min_level : Int) (hrole : u.role < 1) :
    require_admin u = Except.ok u ∧
    require_manager u = Except.ok u ∧
    require_employee u = Except.ok u ∧
    require_any_user u = Except.ok u ∧
    (∀ minimum_role : Int, 1 ≤ minimum_role → role_checker minimum_role u = Except.ok u) ∧
    require_permission entity action min_level u db =
      Except.error (invalid_role_error u.role) := by
  have hmap : role_mapping u.role = none := by
    unfold role_mapping
    rw [if_neg (by omega), if_neg (by omega), if_neg (by omega),
      if_neg (by omega), if_neg (by omega)]
  have hrc : ∀ m : Int, 1 ≤ m → role_checker m u = Except.ok u := by
    intro m hm
    unfold role_checker
    rw [if_neg (by omega)]
  refine ⟨hrc 1 (by omega), hrc 2 (by omega), hrc 3 (by omega), hrc 5 (by omega),
    hrc, ?_⟩
  unfold require_permission permission_checker
  simp only [hmap]

/-- Witness for C9: the role-0 user passes the admin-only gate but is rejected
by the permission Check with the invalid-role exception. -/
theorem role_gate_no_lower_bound_witness :
    require_admin zeroUser = Except.ok zeroUser ∧
    require_permission "reports" "export" 1 zeroUser db0 =
      Except.error (invalid_role_error 0) :=
  ⟨(role_gate_no_lower_bound zeroUser db0 "reports" "export" 1 (by decide)).1,
   (role_gate_no_lower_bound zeroUser db0 "reports" "export" 1 (by decide)).2.2.2.2.2⟩
